import Mathlib

/-!
Verification of the hybrid risk-detection engine of `app.py`.

The Python source is embedded shallowly:

* strings are lists of character codes (`List Nat`, via `strOf` for the
  lexicon and `String.data`/`Char.toNat` for message texts); `str.lower()`
  is `lowerCodes` (ASCII case folding, which covers the whole lexicon),
  `str.split()` is `splitWs`, and the `in` substring test is `isSub`;
* `difflib.SequenceMatcher` (the engine of the pure-python fuzzywuzzy
  backend) is embedded by `findLongestMatch` / `rawBlocks` /
  `getMatchingBlocks`, `fuzz.ratio` by `fuzzRatio`, and fuzzywuzzy's
  second matcher (`partial_ratio`) by `fuzzPartRatio`;
* floating point scores are embedded exactly in fixed-point units: the
  `matches` accumulator in tenths (an exact match adds 10, a fuzzy word
  match 8, a fuzzy phrase match 9) and every score in thousandths (the
  interval [0, 1] is [0, 1000], the base score 0.9 is 900, the per-match
  bonus 0.03 is 3 per tenth of a match, and the level cutoffs 0.8 / 0.6 /
  0.4 are 800 / 600 / 400) — every value the program manipulates is a
  multiple of 0.001, so the rescaling is exact; similarity ratios are
  integers 0..100 as in fuzzywuzzy, with Python's `round` embedded as
  round-half-to-even (`roundHE`);
* the Flask route `/api/analyze` is embedded as the pure function
  `analyze` over an explicit settings record and alert store.
-/

set_option maxRecDepth 4000000
set_option maxHeartbeats 4000000

namespace ChildSafety

/-- Character codes of a (lexicon) string. -/
def strOf (s : String) : List Nat := s.data.map Char.toNat

/-- Python `str.lower()` on one ASCII character code. -/
def lowerCode (c : Nat) : Nat := if 65 ≤ c ∧ c ≤ 90 then c + 32 else c

/-- Python `text.lower()` on character codes. -/
def lowerCodes (s : List Nat) : List Nat := s.map lowerCode

/-- Whitespace test used by Python `str.split()` for the characters that
can actually occur in our texts (space, tab, newline, carriage return). -/
def isWsCode (c : Nat) : Bool := c = 32 || c = 9 || c = 10 || c = 13

/-- Helper of `splitWs`: accumulates the current word (reversed). -/
def splitWsAux : List Nat → List Nat → List (List Nat)
  | [], acc => if acc.isEmpty then [] else [acc.reverse]
  | c :: cs, acc =>
    if isWsCode c then
      if acc.isEmpty then splitWsAux cs [] else acc.reverse :: splitWsAux cs []
    else splitWsAux cs (c :: acc)

/-- Python `text.split()`: maximal runs of non-whitespace characters. -/
def splitWs (s : List Nat) : List (List Nat) := splitWsAux s []

/-- Python `needle in hay` substring containment. -/
def isSub (needle : List Nat) : List Nat → Bool
  | [] => needle.isEmpty
  | c :: t => needle.isPrefixOf (c :: t) || isSub needle t

/-- Length of the longest common prefix of two code lists. -/
def cpl : List Nat → List Nat → Nat
  | a :: as, b :: bs => if a = b then cpl as bs + 1 else 0
  | _, _ => 0

/-- Inner column scan of `find_longest_match`: try every start position
`j` in `b` against the suffix `sa` of `a` starting at row `i`; a strictly
longer common run replaces the current best (so the first maximum in scan
order is kept, exactly difflib's tie-breaking). -/
def flmRowAux (i : Nat) (sa : List Nat) :
    List Nat → Nat → (Nat × Nat × Nat) → (Nat × Nat × Nat)
  | [], _, best => best
  | b :: bt, j, best =>
    let k := cpl sa (b :: bt)
    flmRowAux i sa bt (j + 1) (if best.2.2 < k then (i, j, k) else best)

/-- Outer row scan of `find_longest_match` over the suffixes of `a`. -/
def flmAux (wb : List Nat) :
    List Nat → Nat → (Nat × Nat × Nat) → (Nat × Nat × Nat)
  | [], _, best => best
  | a :: rest, i, best => flmAux wb rest (i + 1) (flmRowAux i (a :: rest) wb 0 best)

/-- `difflib.SequenceMatcher.find_longest_match` on the windows `wa`, `wb`
(no junk, as for strings shorter than 200): the longest common run, ties
broken by least start in `a`, then least start in `b`. -/
def findLongestMatch (wa wb : List Nat) : Nat × Nat × Nat :=
  flmAux wb wa 0 (0, 0, 0)

/-- Recursive block collection of `get_matching_blocks` (before merging):
the longest match of each window, then the windows to its left and right;
`aoff`/`boff` translate window positions back to absolute indices.  The
fuel (always ample) bounds the recursion depth. -/
def mbAux : Nat → List Nat → List Nat → Nat → Nat → List (Nat × Nat × Nat)
  | 0, _, _, _, _ => []
  | fuel + 1, wa, wb, aoff, boff =>
    let m := findLongestMatch wa wb
    if m.2.2 = 0 then []
    else
      mbAux fuel (wa.take m.1) (wb.take m.2.1) aoff boff ++
        (aoff + m.1, boff + m.2.1, m.2.2) ::
          mbAux fuel (wa.drop (m.1 + m.2.2)) (wb.drop (m.2.1 + m.2.2))
            (aoff + m.1 + m.2.2) (boff + m.2.1 + m.2.2)

/-- All matching blocks of `a` against `b`, sorted, unmerged. -/
def rawBlocks (a b : List Nat) : List (Nat × Nat × Nat) :=
  mbAux (a.length + b.length + 1) a b 0 0

/-- The merge loop at the end of `get_matching_blocks`: adjacent blocks
are coalesced. -/
def mergeBlocksAux :
    (Nat × Nat × Nat) → List (Nat × Nat × Nat) → List (Nat × Nat × Nat)
  | cur, [] => if cur.2.2 = 0 then [] else [cur]
  | cur, x :: rest =>
    if cur.1 + cur.2.2 = x.1 && cur.2.1 + cur.2.2 = x.2.1 then
      mergeBlocksAux (cur.1, cur.2.1, cur.2.2 + x.2.2) rest
    else if cur.2.2 = 0 then mergeBlocksAux x rest
    else cur :: mergeBlocksAux x rest

/-- `SequenceMatcher.get_matching_blocks`: merged blocks plus the
terminating sentinel `(len(a), len(b), 0)`. -/
def getMatchingBlocks (a b : List Nat) : List (Nat × Nat × Nat) :=
  mergeBlocksAux (0, 0, 0) (rawBlocks a b) ++ [(a.length, b.length, 0)]

/-- Total number of matched characters: the `T` of `ratio() = 2T/(|a|+|b|)`. -/
def matchSum (a b : List Nat) : Nat :=
  (rawBlocks a b).foldl (fun s x => s + x.2.2) 0

/-- Python `int(round(n / d))` on an exact fraction: round half to even. -/
def roundHE (n d : Nat) : Nat :=
  let q := n / d
  let r := n % d
  if 2 * r < d then q
  else if d < 2 * r then q + 1
  else if q % 2 = 0 then q else q + 1

/-- `fuzz.ratio`: the similarity percentage `round(100 * 2T/(|a|+|b|))`. -/
def fuzzRatio (a b : List Nat) : Nat :=
  let d := a.length + b.length
  if d = 0 then 100 else roundHE (200 * matchSum a b) d

/-- The second fuzzywuzzy matcher used by the source (its partial
similarity ratio): for each matching block of (shorter, longer), compare
the shorter string against the aligned substring of the longer one; an
intermediate ratio above 0.995 short-circuits to 100, otherwise the
maximum ratio is rounded.  Ratios are carried as exact
numerator/denominator pairs. -/
def fuzzPartRatio (s1 s2 : List Nat) : Nat :=
  let p := if s1.length ≤ s2.length then (s1, s2) else (s2, s1)
  let shorter := p.1
  let longer := p.2
  let frs := (getMatchingBlocks shorter longer).map fun x =>
    let ls := if x.1 ≤ x.2.1 then x.2.1 - x.1 else 0
    let sub := (longer.drop ls).take shorter.length
    let d := shorter.length + sub.length
    if d = 0 then (1, 1) else (2 * matchSum shorter sub, d)
  if frs.any fun fr => 199 * fr.2 < 200 * fr.1 then 100
  else
    let best := frs.foldl (fun acc fr => if acc.1 * fr.2 < fr.1 * acc.2 then fr else acc) (0, 1)
    roundHE (100 * best.1) best.2

/-- Kind of evidence a keyword produced (exact substring, fuzzy word-level
match at weight 0.8, fuzzy phrase-level match at weight 0.9). -/
inductive MatchKind
  | exact
  | fuzzy_word
  | fuzzy_phrase
deriving DecidableEq, Repr

/-- Weight a match adds to the category's `matches` accumulator, in tenths
(`matches += 1` / `+= 0.8` / `+= 0.9` in the source). -/
def kindWeight : MatchKind → Nat
  | .exact => 10
  | .fuzzy_word => 8
  | .fuzzy_phrase => 9

/-- Evidence the per-keyword matching loop produces on one message: an
exact substring hit (which skips the fuzzy pass entirely), else the fuzzy
word-level pass (first token of length ≥ 3 reaching the threshold)
followed by the fuzzy phrase-level pass (first sliding window of the
keyword's word count reaching the threshold); the two fuzzy passes are
independent of each other. -/
def keywordEvidence (textLower : List Nat) (words : List (List Nat))
    (thr : Nat) (kw : List Nat) : List MatchKind :=
  if isSub kw textLower then [MatchKind.exact]
  else
    let wordHit := words.any fun w => 3 ≤ w.length && thr ≤ fuzzRatio kw w
    let kwc := (splitWs kw).length
    let phrases := (List.range (words.length + 1 - kwc)).map fun i =>
      List.intercalate [32] ((words.drop i).take kwc)
    let phraseHit := phrases.any fun ph => thr ≤ fuzzPartRatio kw ph
    (if wordHit then [MatchKind.fuzzy_word] else []) ++
      (if phraseHit then [MatchKind.fuzzy_phrase] else [])

/-- One entry of the `patterns` dictionary (`score_base` in thousandths). -/
structure Category where
  keywords : List String
  score_base : Nat
  fuzzy_threshold : Nat
deriving DecidableEq, Repr

/-- ASCII apostrophe, kept out of the string literals below. -/
def apos : String := String.mk [Char.ofNat 39]

/-- The `patterns` dictionary of `analyze_risk`, in insertion order,
including the duplicated self-harm keyword `end my life`. -/
def patterns : List (String × Category) := [
  ("self_harm",
    { keywords := [
        "suicide", "suicidal", "kill myself", "killing myself",
        "end my life", "take my life", "taking my life",
        "self harm", "self-harm", "selfharm",
        "self injury", "self-injury", "selfinjury",
        "self inflict", "self-inflict", "selfinflict",
        "self mutilat", "self-mutilat", "selfmutilat",
        "self destruct", "self-destruct", "selfdestruct",
        "want to die", "wanna die", "want death",
        "wish i was dead", "wish i were dead", "wish i died",
        "hope i die", "better off dead", "world without me",
        "no reason to live", "not worth living", "life is not worth",
        "nothing to live for", "can" ++ apos ++ "t go on", "cant go on",
        "can" ++ apos ++ "t take it", "cant take it", "can" ++ apos ++ "t do this",
        "give up on life", "giving up on life",
        "cut myself", "cutting myself", "cut my",
        "hurt myself", "hurting myself", "hurt my",
        "harm myself", "harming myself", "harm my",
        "burn myself", "burning myself",
        "hit myself", "hitting myself",
        "scratch myself", "scratching myself",
        "end it all", "end things", "end everything",
        "end my life", "ending my life",
        "finish it", "finish everything",
        "hang myself", "hanging myself",
        "jump off", "jumping off",
        "overdose", "overdosing",
        "slit my wrist", "cut my wrist",
        "pills to die", "take pills",
        "goodbye world", "goodbye cruel world",
        "nobody will miss me", "better without me",
        "tired of living", "done with life"],
      score_base := 900,
      fuzzy_threshold := 85 }),
  ("grooming",
    { keywords := [
        "secret", "dont tell", "don" ++ apos ++ "t tell", "special friend", "meet up",
        "send photo", "video call alone", "age", "how old",
        "mature for your age", "trust me", "our secret", "our little secret",
        "come over", "pick you up", "special relationship"],
      score_base := 800,
      fuzzy_threshold := 85 }),
  ("cyberbullying",
    { keywords := [
        "kill yourself", "kys", "nobody likes you", "loser", "fat", "ugly",
        "worthless", "die", "hate you", "stupid", "dumb", "pathetic", "freak",
        "waste of space", "go die", "nobody cares", "everyone hates you"],
      score_base := 700,
      fuzzy_threshold := 80 }),
  ("drugs",
    { keywords := [
        "buy weed", "get high", "want pills", "drug dealer", "cocaine", "heroin",
        "where to buy", "how much for", "mdma", "vape", "cigarettes", "smoke weed",
        "get drugs", "selling drugs", "marijuana", "meth", "acid", "lsd"],
      score_base := 750,
      fuzzy_threshold := 85 }),
  ("sextortion",
    { keywords := [
        "send nudes", "naked pic", "i" ++ apos ++ "ll share", "ill share",
        "expose you", "blackmail",
        "nude photo", "threaten", "post online", "embarrassing photo",
        "explicit photo", "share your photos", "leak your pics"],
      score_base := 850,
      fuzzy_threshold := 85 }),
  ("scam",
    { keywords := [
        "send money", "paypal", "venmo", "cash app", "gift card", "bitcoin",
        "wire transfer", "bank account", "urgent payment", "limited time",
        "act now", "exclusive offer", "send cash", "credit card"],
      score_base := 600,
      fuzzy_threshold := 85 })]

/-- One element of `detected_risks` in `analyze_risk` (`matchesVal` embeds
the source's `matches` accumulator in tenths — the name `matches` is
reserved in Lean — and `risk_score` is in thousandths). -/
structure DetectedRisk where
  risk_type : String
  risk_score : Nat
  matchesVal : Nat
  keywords : List (String × MatchKind)
deriving DecidableEq, Repr

/-- The `matched_keywords` evidence a category collects on one message,
one entry per append of the source's inner loop. -/
def categoryEvidence (textLower : List Nat) (words : List (List Nat))
    (c : Category) : List (String × MatchKind) :=
  c.keywords.flatMap fun kw =>
    (keywordEvidence textLower words c.fuzzy_threshold (strOf kw)).map fun k => (kw, k)

/-- The final value of the `matches` accumulator, in tenths: the weighted
sum over all evidence entries. -/
def evidenceWeight (ev : List (String × MatchKind)) : Nat :=
  ev.foldl (fun s e => s + kindWeight e.2) 0

/-- The `detected_risks` list of `analyze_risk`: each category with a
positive `matches` value, scored `min(score_base + matches * 0.03, 1.0)`. -/
def detectedRisks (text : List Char) : List DetectedRisk :=
  let text_lower := lowerCodes (text.map Char.toNat)
  let words := splitWs text_lower
  patterns.filterMap fun p =>
    let ev := categoryEvidence text_lower words p.2
    let mv := evidenceWeight ev
    if 0 < mv then
      some { risk_type := p.1,
             risk_score := min (p.2.score_base + mv * 3) 1000,
             matchesVal := mv,
             keywords := ev.take 3 }
    else none

/-- Python `max(detected_risks, key=lambda x: x['risk_score'])`: the first
entry attaining the maximal score. -/
def highestRisk (d : DetectedRisk) (ds : List DetectedRisk) : DetectedRisk :=
  ds.foldl (fun best x => if best.risk_score < x.risk_score then x else best) d

/-- The `explanations` dictionary, with the `'Risk detected.'` default. -/
def explanationFor (rt : String) : String :=
  if rt = "grooming" then
    "Potential grooming behavior detected. This conversation may contain predatory language."
  else if rt = "cyberbullying" then
    "Harmful language detected. This message contains bullying or threatening content."
  else if rt = "self_harm" then
    "URGENT: Self-harm indicators detected. Immediate attention recommended."
  else if rt = "drugs" then
    "Drug-related content detected. Conversation may involve illegal substances."
  else if rt = "sextortion" then
    "Potential sextortion detected. This appears to involve coercion or blackmail."
  else if rt = "scam" then
    "Potential scam detected. This message shows signs of financial fraud."
  else "Risk detected."

/-- The dictionary `analyze_risk` returns. -/
structure Assessment where
  risk_type : String
  risk_level : String
  risk_score : Nat
  explanation : String
  matched_keywords : List (String × MatchKind)
deriving DecidableEq, Repr

/-- `analyze_risk(text)`: the safe assessment when nothing is detected,
otherwise the highest-scoring detection discretized by the 0.8 / 0.6 / 0.4
thresholds. -/
def analyze_risk (text : List Char) : Assessment :=
  match detectedRisks text with
  | [] =>
    { risk_type := "none", risk_level := "safe", risk_score := 0,
      explanation := "No concerning content detected.", matched_keywords := [] }
  | d :: ds =>
    let highest := highestRisk d ds
    let score := highest.risk_score
    let risk_level :=
      if 800 ≤ score then "critical"
      else if 600 ≤ score then "high"
      else if 400 ≤ score then "medium"
      else "low"
    { risk_type := highest.risk_type,
      risk_level := risk_level,
      risk_score := highest.risk_score,
      explanation := explanationFor highest.risk_type,
      matched_keywords := highest.keywords }

/-- The settings row read by the route (`parent_consent` is never read by
`analyze`; `alert_threshold` in thousandths). -/
structure Settings where
  parent_consent : Bool
  monitoring_enabled : Bool
  alert_threshold : Nat
deriving DecidableEq, Repr

/-- A row of the `alerts` table as written by the route (the timestamp is
elided: it carries no decision-relevant content). -/
structure AlertRow where
  content : List Char
  risk_type : String
  risk_level : String
  risk_score : Nat
  context : String
deriving DecidableEq, Repr

/-- The JSON body of a `/api/analyze` request: the route reads only the
`text` field; any `sender` field is never read. -/
structure AnalyzeRequest where
  text : List Char
  sender : String
deriving DecidableEq, Repr

/-- The `/api/analyze` route: empty text is rejected with a 400 error and
the alert store untouched; otherwise the message is analyzed and an alert
row is appended exactly when monitoring is enabled and the score reaches
the threshold. -/
def analyze (req : AnalyzeRequest) (st : Settings) (alerts : List AlertRow) :
    Except String Assessment × List AlertRow :=
  if req.text.isEmpty then (Except.error "No text provided", alerts)
  else
    let analysis := analyze_risk req.text
    let alerts' :=
      if st.monitoring_enabled ∧ st.alert_threshold ≤ analysis.risk_score then
        alerts ++ [{ content := req.text.take 500,
                     risk_type := analysis.risk_type,
                     risk_level := analysis.risk_level,
                     risk_score := analysis.risk_score,
                     context := analysis.explanation }]
      else alerts
    (Except.ok analysis, alerts')

/-! Definitions taken from the specification's words, for comparison with
the code-derived pipeline above. -/

/-- Modelled from the spec (section 4.3 bonus policy): `raw_score =
min(base_score + bonus, 1.0)` with `bonus = density * 0.25` and `density =
matches / max(word_count/20, 1)`.  Stated over exact rationals in the
code's natural units (a base score of 0.6 is `3/5`, one exact match is
`m = 1`). -/
def specRawScore (base m : ℚ) (word_count : Nat) : ℚ :=
  min (base + m / max ((word_count : ℚ) / 20) 1 * (1 / 4)) 1

/-- Level table claimed by the spec (section 4.3), in thousandths:
score ≥ 0.8 critical, ≥ 0.6 high, ≥ 0.4 medium, > 0 low, = 0 safe. -/
def specLevelOfScore (score : Nat) : String :=
  if score = 0 then "safe"
  else if 800 ≤ score then "critical"
  else if 600 ≤ score then "high"
  else if 400 ≤ score then "medium"
  else "low"

/-- The always-alert category set claimed by the spec (section 4.4). -/
def specAlwaysAlert : List String :=
  ["grooming", "sextortion", "self_harm", "cyberbullying"]

/-! Helper lemmas about the pipeline. -/

/-- The route never reads the sender field of the request. -/
theorem analyze_sender_irrelevant (text : List Char) (s1 s2 : String)
    (st : Settings) (alerts : List AlertRow) :
    analyze ⟨text, s1⟩ st alerts = analyze ⟨text, s2⟩ st alerts := rfl

/-- Every evidence kind has positive weight. -/
theorem kindWeight_pos (k : MatchKind) : 0 < kindWeight k := by
  cases k <;> decide

/-- The `matches` accumulator is the sum of the entry weights. -/
theorem evidenceWeight_eq_sum (ev : List (String × MatchKind)) :
    evidenceWeight ev = (ev.map fun e => kindWeight e.2).sum := by
  unfold evidenceWeight
  suffices h : ∀ init : Nat,
      ev.foldl (fun s e => s + kindWeight e.2) init =
        init + (ev.map fun e => kindWeight e.2).sum by
    simpa using h 0
  induction ev with
  | nil => simp
  | cons e rest ih => intro init; simp [List.foldl_cons, ih]; omega

/-- A nonempty evidence list has positive total weight. -/
theorem evidenceWeight_pos (ev : List (String × MatchKind))
    (e : String × MatchKind) (he : e ∈ ev) : 0 < evidenceWeight ev := by
  rw [evidenceWeight_eq_sum]
  have h1 : kindWeight e.2 ≤ (ev.map fun x => kindWeight x.2).sum :=
    List.single_le_sum (fun y _ => Nat.zero_le y) _ (List.mem_map_of_mem _ he)
  exact lt_of_lt_of_le (kindWeight_pos e.2) h1

/-- Base scores all lie between 0.6 and 1 (in thousandths). -/
theorem score_base_bounds : ∀ p ∈ patterns,
    600 ≤ p.2.score_base ∧ p.2.score_base ≤ 1000 := by decide

/-- Characterization of `detected_risks` membership: every entry comes
from a pattern, carries its name, a positive weighted match count, and the
`min(score_base + matches * 0.03, 1.0)` score. -/
theorem mem_detectedRisks (text : List Char) (d : DetectedRisk)
    (h : d ∈ detectedRisks text) :
    ∃ p ∈ patterns, d.risk_type = p.1 ∧
      d.matchesVal =
        evidenceWeight
          (categoryEvidence (lowerCodes (text.map Char.toNat))
            (splitWs (lowerCodes (text.map Char.toNat))) p.2) ∧
      0 < d.matchesVal ∧
      d.risk_score = min (p.2.score_base + d.matchesVal * 3) 1000 := by
  unfold detectedRisks at h
  rw [List.mem_filterMap] at h
  obtain ⟨p, hp, hf⟩ := h
  refine ⟨p, hp, ?_⟩
  by_cases hm : 0 < evidenceWeight
      (categoryEvidence (lowerCodes (text.map Char.toNat))
        (splitWs (lowerCodes (text.map Char.toNat))) p.2)
  · rw [if_pos hm] at hf
    cases hf
    exact ⟨rfl, rfl, hm, rfl⟩
  · rw [if_neg hm] at hf
    cases hf

/-- Converse: a pattern with positive evidence weight contributes exactly
its scored record to `detected_risks`. -/
theorem detectedRisks_of_pos (text : List Char) (p : String × Category)
    (hp : p ∈ patterns)
    (hm : 0 < evidenceWeight
      (categoryEvidence (lowerCodes (text.map Char.toNat))
        (splitWs (lowerCodes (text.map Char.toNat))) p.2)) :
    ({ risk_type := p.1,
       risk_score := min (p.2.score_base +
         evidenceWeight
           (categoryEvidence (lowerCodes (text.map Char.toNat))
             (splitWs (lowerCodes (text.map Char.toNat))) p.2) * 3) 1000,
       matchesVal := evidenceWeight
         (categoryEvidence (lowerCodes (text.map Char.toNat))
           (splitWs (lowerCodes (text.map Char.toNat))) p.2),
       keywords := (categoryEvidence (lowerCodes (text.map Char.toNat))
         (splitWs (lowerCodes (text.map Char.toNat))) p.2).take 3 } : DetectedRisk)
      ∈ detectedRisks text := by
  unfold detectedRisks
  rw [List.mem_filterMap]
  exact ⟨p, hp, by rw [if_pos hm]⟩

/-- Every detected entry scores between 0.6 and 1 (in thousandths). -/
theorem detectedRisks_score_bounds (text : List Char) (d : DetectedRisk)
    (h : d ∈ detectedRisks text) :
    600 ≤ d.risk_score ∧ d.risk_score ≤ 1000 := by
  obtain ⟨p, hp, _, _, _, hscore⟩ := mem_detectedRisks text d h
  obtain ⟨hb1, _⟩ := score_base_bounds p hp
  constructor
  · rw [hscore]
    exact le_min (le_trans hb1 (Nat.le_add_right _ _)) (by omega)
  · rw [hscore]
    exact min_le_right _ _

/-- Unfolding of Python's `max` scan one step at a time. -/
theorem highestRisk_cons (d x : DetectedRisk) (xs : List DetectedRisk) :
    highestRisk d (x :: xs) =
      highestRisk (if d.risk_score < x.risk_score then x else d) xs := rfl

/-- The winner is one of the detected risks. -/
theorem highestRisk_mem (d : DetectedRisk) (ds : List DetectedRisk) :
    highestRisk d ds ∈ d :: ds := by
  induction ds generalizing d with
  | nil => simp [highestRisk]
  | cons x xs ih =>
    rw [highestRisk_cons]
    rcases List.mem_cons.1 (ih (if d.risk_score < x.risk_score then x else d)) with h | h
    · rw [h]
      split
      · exact List.mem_cons_of_mem _ (List.mem_cons_self _ _)
      · exact List.mem_cons_self _ _
    · exact List.mem_cons_of_mem _ (List.mem_cons_of_mem _ h)

/-- The winner's score dominates every detected risk's score. -/
theorem highestRisk_ge (d : DetectedRisk) (ds : List DetectedRisk) :
    ∀ x ∈ d :: ds, x.risk_score ≤ (highestRisk d ds).risk_score := by
  induction ds generalizing d with
  | nil =>
    intro x hx
    rcases List.mem_cons.1 hx with h | h
    · rw [h]; exact le_refl _
    · cases h
  | cons y ys ih =>
    intro x hx
    rw [highestRisk_cons]
    have hd : d.risk_score ≤ (if d.risk_score < y.risk_score then y else d).risk_score := by
      split <;> omega
    have hy : y.risk_score ≤ (if d.risk_score < y.risk_score then y else d).risk_score := by
      split <;> omega
    have htop := ih (if d.risk_score < y.risk_score then y else d) _
      (List.mem_cons_self _ _)
    rcases List.mem_cons.1 hx with h | h
    · rw [h]; exact le_trans hd htop
    · rcases List.mem_cons.1 h with h2 | h2
      · rw [h2]; exact le_trans hy htop
      · exact ih _ _ (List.mem_cons_of_mem _ h2)

/-- Evaluation of `analyze_risk` once the detections are known. -/
theorem analyze_risk_cons (text : List Char) (d : DetectedRisk)
    (ds : List DetectedRisk) (h : detectedRisks text = d :: ds) :
    analyze_risk text =
      { risk_type := (highestRisk d ds).risk_type,
        risk_level :=
          if 800 ≤ (highestRisk d ds).risk_score then "critical"
          else if 600 ≤ (highestRisk d ds).risk_score then "high"
          else if 400 ≤ (highestRisk d ds).risk_score then "medium"
          else "low",
        risk_score := (highestRisk d ds).risk_score,
        explanation := explanationFor (highestRisk d ds).risk_type,
        matched_keywords := (highestRisk d ds).keywords } := by
  unfold analyze_risk
  rw [h]

/-- A list is never equal to itself with one more element appended. -/
theorem append_singleton_ne (l : List AlertRow) (x : AlertRow) : l ++ [x] ≠ l := by
  simp

/-- Every string contains itself as a substring. -/
theorem isSub_self (l : List Nat) : isSub l l = true := by
  cases l with
  | nil => rfl
  | cons c t => simp [isSub, List.isPrefixOf_iff_prefix]

/-- Every keyword of the lexicon is already lowercase. -/
theorem patterns_keywords_lower :
    ∀ p ∈ patterns, ∀ kw ∈ p.2.keywords, lowerCodes (strOf kw) = strOf kw := by
  decide

/-- How the alert store changes on a non-empty text: a row is appended
exactly when monitoring is on and the winning score reaches the threshold;
the response always carries the assessment. -/
theorem analyze_store_spec (text : List Char) (sender : String) (st : Settings)
    (alerts : List AlertRow) (h : text ≠ []) :
    ((analyze ⟨text, sender⟩ st alerts).2 ≠ alerts ↔
      st.monitoring_enabled = true ∧
        st.alert_threshold ≤ (analyze_risk text).risk_score) ∧
    (analyze ⟨text, sender⟩ st alerts).1 = Except.ok (analyze_risk text) := by
  have hemp : text.isEmpty = false := by simp [h]
  unfold analyze
  simp only [hemp, Bool.false_eq_true, if_false]
  constructor
  · by_cases hc : st.monitoring_enabled = true ∧
        st.alert_threshold ≤ (analyze_risk text).risk_score
    · rw [if_pos hc]
      exact iff_of_true (append_singleton_ne alerts _) hc
    · rw [if_neg hc]
      exact iff_of_false (by simp) hc
  · trivial

/-- Concrete evaluation: detections on the message "kys". -/
theorem detected_kys : detectedRisks (String.data "kys") =
    [⟨"cyberbullying", 730, 10, [("kys", MatchKind.exact)]⟩] := by
  decide

/-- Concrete evaluation: detections on the message "paypal". -/
theorem detected_paypal : detectedRisks (String.data "paypal") =
    [⟨"scam", 630, 10, [("paypal", MatchKind.exact)]⟩] := by
  decide

/-- Concrete evaluation: detections on the message "send photo". -/
theorem detected_send_photo : detectedRisks (String.data "send photo") =
    [⟨"grooming", 830, 10, [("send photo", MatchKind.exact)]⟩,
     ⟨"sextortion", 877, 9, [("nude photo", MatchKind.fuzzy_phrase)]⟩] := by
  decide

/-! Claim theorems. -/

/-- C1 (amended): the code has no sender-sensitive intervention table; for
a cyberbullying-triggering text the alert outcome is identical for sender
"child" and sender "stranger", and an alert row is recorded exactly when
monitoring is enabled and the score reaches the threshold. -/
theorem claimC1_amended (text : List Char) (st : Settings) (h0 : text ≠ [])
    (_h : (analyze_risk text).risk_type = "cyberbullying") :
    (analyze ⟨text, "child"⟩ st []).2 = (analyze ⟨text, "stranger"⟩ st []).2 ∧
    ((analyze ⟨text, "child"⟩ st []).2 ≠ [] ↔
      st.monitoring_enabled = true ∧
        st.alert_threshold ≤ (analyze_risk text).risk_score) :=
  ⟨congrArg Prod.snd (analyze_sender_irrelevant text "child" "stranger" st []),
    (analyze_store_spec text "child" st [] h0).1⟩

/-- C1 (counterexample): "kys" triggers cyberbullying, yet with monitoring
enabled at threshold 0.6 the alert outcome is the same for sender "child"
and sender "stranger" (both record an alert), while the claim demands
different parent-alert values with the child run alert-free. -/
theorem claimC1_counterexample :
    (analyze_risk (String.data "kys")).risk_type = "cyberbullying" ∧
    (analyze (⟨String.data "kys", "child"⟩) ⟨true, true, 600⟩ []).2 =
      (analyze (⟨String.data "kys", "stranger"⟩) ⟨true, true, 600⟩ []).2 ∧
    (analyze (⟨String.data "kys", "child"⟩) ⟨true, true, 600⟩ []).2 ≠ [] := by
  have hass := analyze_risk_cons _ _ _ detected_kys
  have hty : (analyze_risk (String.data "kys")).risk_type = "cyberbullying" := by
    rw [hass]
    decide
  have hsc : (analyze_risk (String.data "kys")).risk_score = 730 := by
    rw [hass]
    decide
  have hs := (analyze_store_spec (String.data "kys") "child"
    ⟨true, true, 600⟩ [] (by decide)).1
  refine ⟨hty,
    congrArg Prod.snd
      (analyze_sender_irrelevant (String.data "kys") "child" "stranger"
        ⟨true, true, 600⟩ []), ?_⟩
  refine hs.mpr ⟨rfl, ?_⟩
  rw [hsc]
  decide

/-- Witness for C1 (amended) at text "kys" and monitoring-on settings. -/
theorem claimC1_witness :
    (analyze_risk (String.data "kys")).risk_type = "cyberbullying" ∧
    ((analyze (⟨String.data "kys", "child"⟩) ⟨true, true, 600⟩ []).2 =
        (analyze (⟨String.data "kys", "stranger"⟩) ⟨true, true, 600⟩ []).2 ∧
      ((analyze (⟨String.data "kys", "child"⟩) ⟨true, true, 600⟩ []).2 ≠ [] ↔
        (⟨true, true, 600⟩ : Settings).monitoring_enabled = true ∧
          (⟨true, true, 600⟩ : Settings).alert_threshold ≤
            (analyze_risk (String.data "kys")).risk_score)) := by
  have hass := analyze_risk_cons _ _ _ detected_kys
  have hty : (analyze_risk (String.data "kys")).risk_type = "cyberbullying" := by
    rw [hass]
    decide
  exact ⟨hty, claimC1_amended (String.data "kys") ⟨true, true, 600⟩ (by decide) hty⟩

/-- C2 (amended): an alert row is recorded if and only if monitoring is
enabled and the score reaches the configured threshold; there is no
always-alert category set and no rule-table flag in the code. -/
theorem claimC2_amended (text : List Char) (sender : String) (st : Settings)
    (alerts : List AlertRow) (h : text ≠ []) :
    ((analyze ⟨text, sender⟩ st alerts).2 ≠ alerts ↔
      st.monitoring_enabled = true ∧
        st.alert_threshold ≤ (analyze_risk text).risk_score) ∧
    (analyze ⟨text, sender⟩ st alerts).1 = Except.ok (analyze_risk text) :=
  analyze_store_spec text sender st alerts h

/-- C2 (counterexample): "kys" triggers cyberbullying, a member of the
spec's always-alert set, yet with monitoring disabled no alert row is
recorded, refuting the claimed always-alert disjunct of the iff. -/
theorem claimC2_counterexample :
    (analyze_risk (String.data "kys")).risk_type = "cyberbullying" ∧
    "cyberbullying" ∈ specAlwaysAlert ∧
    (analyze (⟨String.data "kys", "stranger"⟩) ⟨true, false, 600⟩ []).2 = [] := by
  have hass := analyze_risk_cons _ _ _ detected_kys
  refine ⟨by rw [hass]; decide, by decide, ?_⟩
  have hs := (analyze_store_spec (String.data "kys") "stranger"
    ⟨true, false, 600⟩ [] (by decide)).1
  have hno : ¬((⟨true, false, 600⟩ : Settings).monitoring_enabled = true ∧
      (⟨true, false, 600⟩ : Settings).alert_threshold ≤
        (analyze_risk (String.data "kys")).risk_score) := by
    intro hc
    simpa using hc.1
  by_contra hne
  exact hno (hs.mp hne)

/-- Witness for C2 (amended) at text "kys" with monitoring enabled. -/
theorem claimC2_witness :
    String.data "kys" ≠ [] ∧
    (((analyze (⟨String.data "kys", "parent"⟩) ⟨false, true, 600⟩ []).2 ≠ [] ↔
        (⟨false, true, 600⟩ : Settings).monitoring_enabled = true ∧
          (⟨false, true, 600⟩ : Settings).alert_threshold ≤
            (analyze_risk (String.data "kys")).risk_score) ∧
      (analyze (⟨String.data "kys", "parent"⟩) ⟨false, true, 600⟩ []).1 =
        Except.ok (analyze_risk (String.data "kys"))) :=
  ⟨by decide, claimC2_amended (String.data "kys") "parent" ⟨false, true, 600⟩ []
    (by decide)⟩

/-- C3 (amended): the winning score is `min(score_base + matches * 0.03, 1.0)`
for the winning category's base score and weighted match count (thousandths
and tenths here) — a linear per-match bonus, not the density formula. -/
theorem claimC3_amended (text : List Char) (d : DetectedRisk)
    (ds : List DetectedRisk) (h : detectedRisks text = d :: ds) :
    ∃ p ∈ patterns, (analyze_risk text).risk_type = p.1 ∧
      (analyze_risk text).risk_score =
        min (p.2.score_base + (highestRisk d ds).matchesVal * 3) 1000 := by
  have hmem : highestRisk d ds ∈ detectedRisks text := h ▸ highestRisk_mem d ds
  obtain ⟨p, hp, hty, _, _, hscore⟩ := mem_detectedRisks text _ hmem
  refine ⟨p, hp, ?_, ?_⟩
  · simp only [analyze_risk, h]
    exact hty
  · simp only [analyze_risk, h]
    exact hscore

/-- C3 (counterexample): on the one-word message "paypal" (one exact scam
match) the code returns 0.63 = 0.6 + 1·0.03, while the spec's density
formula demands 0.6 + (1 / max(1/20, 1))·0.25 = 0.85. -/
theorem claimC3_counterexample :
    detectedRisks (String.data "paypal") =
      [⟨"scam", 630, 10, [("paypal", MatchKind.exact)]⟩] ∧
    (analyze_risk (String.data "paypal")).risk_score = 630 ∧
    (splitWs (lowerCodes ((String.data "paypal").map Char.toNat))).length = 1 ∧
    specRawScore (3 / 5) 1 1 = 17 / 20 ∧
    ((630 : ℚ) / 1000 ≠ 17 / 20) := by
  refine ⟨detected_paypal, ?_, by decide, ?_, by norm_num⟩
  · rw [analyze_risk_cons _ _ _ detected_paypal]
    decide
  · have h1 : max (((1 : Nat) : ℚ) / 20) 1 = 1 := max_eq_right (by norm_num)
    unfold specRawScore
    rw [h1]
    have h2 : (3 : ℚ) / 5 + 1 / 1 * (1 / 4) = 17 / 20 := by norm_num
    rw [h2]
    exact min_eq_left (by norm_num)

/-- Witness for C3 (amended) at the concrete input "paypal". -/
theorem claimC3_witness :
    detectedRisks (String.data "paypal") =
      [⟨"scam", 630, 10, [("paypal", MatchKind.exact)]⟩] ∧
    ∃ p ∈ patterns, (analyze_risk (String.data "paypal")).risk_type = p.1 ∧
      (analyze_risk (String.data "paypal")).risk_score =
        min (p.2.score_base +
          (highestRisk ⟨"scam", 630, 10, [("paypal", MatchKind.exact)]⟩
            []).matchesVal * 3) 1000 :=
  ⟨detected_paypal, claimC3_amended (String.data "paypal") _ _ detected_paypal⟩

/-- C4 (amended): per keyword the evidence list is one of five shapes: an
exact match alone (which suppresses both fuzzy passes), nothing, a fuzzy
word match, a fuzzy phrase match, or both fuzzy matches together — a fuzzy
word match does not suppress the phrase pass, so a keyword can contribute
two evidence entries (weight 0.8 + 0.9 = 1.7), and the category total is
the weighted sum, not a keyword count. -/
theorem claimC4_amended (textLower : List Nat) (words : List (List Nat))
    (thr : Nat) (kw : List Nat) :
    keywordEvidence textLower words thr kw ∈
      [[MatchKind.exact], [], [MatchKind.fuzzy_word], [MatchKind.fuzzy_phrase],
       [MatchKind.fuzzy_word, MatchKind.fuzzy_phrase]] ∧
    (keywordEvidence textLower words thr kw).length ≤ 2 := by
  unfold keywordEvidence
  split
  · exact ⟨by decide, by decide⟩
  · cases hW : (words.any fun w => 3 ≤ w.length && thr ≤ fuzzRatio kw w) <;>
      cases hP : ((List.range (words.length + 1 - (splitWs kw).length)).map fun i =>
          List.intercalate [32] ((words.drop i).take (splitWs kw).length)).any
          (fun ph => thr ≤ fuzzPartRatio kw ph) <;>
      simp [hW, hP]

/-- C4 (counterexample): on "stupud" the keyword "stupid" produces two
evidence entries — the fuzzy word match does not suppress the phrase
pass — so the cyberbullying evidence is two entries for one keyword and
the category total is 1.7 (17 tenths), not the claimed single entry and
count 1 (10 tenths). -/
theorem claimC4_counterexample :
    keywordEvidence (lowerCodes ((String.data "stupud").map Char.toNat))
        (splitWs (lowerCodes ((String.data "stupud").map Char.toNat))) 80
        (strOf "stupid") =
      [MatchKind.fuzzy_word, MatchKind.fuzzy_phrase] ∧
    (∃ c, ("cyberbullying", c) ∈ patterns ∧
      categoryEvidence (lowerCodes ((String.data "stupud").map Char.toNat))
          (splitWs (lowerCodes ((String.data "stupud").map Char.toNat))) c =
        [("stupid", MatchKind.fuzzy_word), ("stupid", MatchKind.fuzzy_phrase)] ∧
      evidenceWeight
        (categoryEvidence (lowerCodes ((String.data "stupud").map Char.toNat))
          (splitWs (lowerCodes ((String.data "stupud").map Char.toNat))) c) = 17) ∧
    (17 : Nat) ≠ 10 := by
  refine ⟨by decide, ⟨(patterns.get ⟨2, by decide⟩).2, ?_, by decide, by decide⟩, by decide⟩
  exact List.get_mem patterns 2 (by decide)

/-- C5 (amended): analyzing a keyword's own text detects its category with
a raw score at least the category's base score, and the returned winning
score is also at least that base score; the score can exceed the base
(sibling keywords fuzzy-match) and the winner can be another category. -/
theorem claimC5_amended :
    ∀ p ∈ patterns, ∀ kw ∈ p.2.keywords,
      ∃ d ∈ detectedRisks kw.data, d.risk_type = p.1 ∧
        p.2.score_base ≤ d.risk_score ∧
        p.2.score_base ≤ (analyze_risk kw.data).risk_score := by
  intro p hp kw hkw
  have hlow : lowerCodes (strOf kw) = strOf kw := patterns_keywords_lower p hp kw hkw
  have hcodes : lowerCodes (kw.data.map Char.toNat) = strOf kw := hlow
  have hev : keywordEvidence (lowerCodes (kw.data.map Char.toNat))
      (splitWs (lowerCodes (kw.data.map Char.toNat)))
      p.2.fuzzy_threshold (strOf kw) = [MatchKind.exact] := by
    unfold keywordEvidence
    rw [hcodes, if_pos (isSub_self (strOf kw))]
  have hmem : (kw, MatchKind.exact) ∈
      categoryEvidence (lowerCodes (kw.data.map Char.toNat))
        (splitWs (lowerCodes (kw.data.map Char.toNat))) p.2 := by
    unfold categoryEvidence
    rw [List.mem_flatMap]
    exact ⟨kw, hkw, by rw [hev]; simp⟩
  have hpos := evidenceWeight_pos _ _ hmem
  have hd := detectedRisks_of_pos kw.data p hp hpos
  have hbase : p.2.score_base ≤
      min (p.2.score_base +
        evidenceWeight (categoryEvidence (lowerCodes (kw.data.map Char.toNat))
          (splitWs (lowerCodes (kw.data.map Char.toNat))) p.2) * 3) 1000 :=
    le_min (Nat.le_add_right _ _) (score_base_bounds p hp).2
  refine ⟨_, hd, rfl, hbase, ?_⟩
  cases hdet : detectedRisks kw.data with
  | nil => rw [hdet] at hd; cases hd
  | cons d0 ds0 =>
    have hge := highestRisk_ge d0 ds0 _ (hdet ▸ hd)
    simp only [analyze_risk, hdet]
    exact le_trans hbase hge

/-- C5 (counterexample): "send photo" is a grooming keyword, yet analyzed
alone the winner is sextortion (0.877 beats grooming's 0.83), and
grooming's own raw score is 0.83 ≠ its base 0.8 — both the claimed winner
identity and the claimed exact base score fail. -/
theorem claimC5_counterexample :
    (patterns.any fun p => p.1 == "grooming" && p.2.keywords.contains "send photo") =
      true ∧
    detectedRisks (String.data "send photo") =
      [⟨"grooming", 830, 10, [("send photo", MatchKind.exact)]⟩,
       ⟨"sextortion", 877, 9, [("nude photo", MatchKind.fuzzy_phrase)]⟩] ∧
    (analyze_risk (String.data "send photo")).risk_type = "sextortion" ∧
    ("sextortion" : String) ≠ "grooming" ∧ (830 : Nat) ≠ 800 := by
  refine ⟨by decide, detected_send_photo, ?_, by decide, by decide⟩
  rw [analyze_risk_cons _ _ _ detected_send_photo]
  decide

/-- Witness for C5 (amended) at the scam keyword "paypal". -/
theorem claimC5_witness :
    ∃ d ∈ detectedRisks (String.data "paypal"), d.risk_type = "scam" ∧
      600 ≤ d.risk_score ∧ 600 ≤ (analyze_risk (String.data "paypal")).risk_score := by
  have h := claimC5_amended (patterns.get ⟨5, by decide⟩)
    (List.get_mem patterns 5 (by decide)) "paypal" (by decide)
  simpa using h

/-- C6: for every non-empty input text, the risk score returned by the
analysis lies in the closed interval [0, 1] (here in thousandths:
[0, 1000]), regardless of how many keywords match or how long the message
is. -/
theorem claimC6_score_in_unit_interval (text : List Char) (_h : text ≠ []) :
    0 ≤ (analyze_risk text).risk_score ∧ (analyze_risk text).risk_score ≤ 1000 := by
  cases hdet : detectedRisks text with
  | nil => simp [analyze_risk, hdet]
  | cons d ds =>
    refine ⟨Nat.zero_le _, ?_⟩
    have hb := detectedRisks_score_bounds text _ (hdet ▸ highestRisk_mem d ds)
    simp only [analyze_risk, hdet]
    exact hb.2

/-- Witness for C6 at the concrete non-empty input "hi". -/
theorem claimC6_witness :
    0 ≤ (analyze_risk (String.data "hi")).risk_score ∧
      (analyze_risk (String.data "hi")).risk_score ≤ 1000 :=
  claimC6_score_in_unit_interval (String.data "hi") (by decide)

/-- C7: the risk level is exactly the spec's fixed threshold table applied
to the winning score (≥ 0.8 critical, ≥ 0.6 high, ≥ 0.4 medium, > 0 low,
= 0 safe), and a zero score can only be the no-evidence case with category
"none" (equivalently: the category is "none" or the score is ≥ 0.6). -/
theorem claimC7_level_thresholds (text : List Char) :
    (analyze_risk text).risk_level = specLevelOfScore (analyze_risk text).risk_score ∧
      ((analyze_risk text).risk_type = "none" ∨ 600 ≤ (analyze_risk text).risk_score) := by
  cases hdet : detectedRisks text with
  | nil =>
    constructor
    · simp [analyze_risk, hdet, specLevelOfScore]
    · left; simp [analyze_risk, hdet]
  | cons d ds =>
    have hb := (detectedRisks_score_bounds text _ (hdet ▸ highestRisk_mem d ds)).1
    constructor
    · have hne : ¬((highestRisk d ds).risk_score = 0) := by omega
      simp only [analyze_risk, hdet]
      unfold specLevelOfScore
      rw [if_neg hne]
    · right
      simp only [analyze_risk, hdet]
      exact hb

/-- C8: empty (or missing, which Flask defaults to empty) text is rejected
with the validation error and the alert store is left unchanged; no
assessment is produced. -/
theorem claimC8_empty_text_rejected (sender : String) (st : Settings)
    (alerts : List AlertRow) :
    analyze ⟨[], sender⟩ st alerts = (Except.error "No text provided", alerts) := rfl

/-- C9: the levels "low" and "medium" are unreachable, and whenever any
category has evidence the score is at least 0.6 (600 in thousandths), so
the level is "high" or "critical". -/
theorem claimC9_low_medium_unreachable (text : List Char) :
    ((analyze_risk text).risk_level ≠ "low" ∧
      (analyze_risk text).risk_level ≠ "medium") ∧
    (detectedRisks text = [] ∨
      (600 ≤ (analyze_risk text).risk_score ∧
        ((analyze_risk text).risk_level = "high" ∨
          (analyze_risk text).risk_level = "critical"))) := by
  cases hdet : detectedRisks text with
  | nil =>
    constructor
    · constructor <;> simp [analyze_risk, hdet]
    · left; rfl
  | cons d ds =>
    have hb := (detectedRisks_score_bounds text _ (hdet ▸ highestRisk_mem d ds)).1
    have hlevel : (analyze_risk text).risk_level = "high" ∨
        (analyze_risk text).risk_level = "critical" := by
      simp only [analyze_risk, hdet]
      by_cases h8 : 800 ≤ (highestRisk d ds).risk_score
      · right; rw [if_pos h8]
      · left; rw [if_neg h8, if_pos hb]
    constructor
    · rcases hlevel with h | h <;> rw [h] <;> exact ⟨by decide, by decide⟩
    · right; exact ⟨by simpa only [analyze_risk, hdet] using hb, hlevel⟩

/-- C10: the full analysis output is a function of the message text alone;
the sender field of the request influences no output field and no alert
row. -/
theorem claimC10_sender_has_no_influence (text : List Char) (s1 s2 : String)
    (st : Settings) (alerts : List AlertRow) :
    analyze ⟨text, s1⟩ st alerts = analyze ⟨text, s2⟩ st alerts :=
  analyze_sender_irrelevant text s1 s2 st alerts

end ChildSafety
